import Mathlib

/-!
Shallow embedding of the alert lifecycle and notification-dispatch engine of
the SecretaryAgent backend (`backend/models/alert.py`,
`backend/services/alert_service.py`, `backend/services/background_tasks.py`,
`backend/services/calendar_service.py`, `backend/routers/alerts.py`).

Timestamps are modelled as natural numbers (seconds).  The persisted alert
table is a `List Alert`; SQLAlchemy queries become list filters and the
in-place mutations of ORM objects become functional record updates followed by
rebuilding the list.  A Python exception is modelled with `Except PyErr`.
-/

/-- A Python exception kind, as far as the embedded code distinguishes them. -/
inductive PyErr
  | typeError
  | runtimeError
deriving DecidableEq, Repr

/-- Model of `models/alert.py`: `class AlertType(enum.Enum)`. -/
inductive AlertType
  | email_vip
  | email_emergency
  | meeting_reminder
  | morning_briefing
  | system
deriving DecidableEq, Repr

/-- Model of `models/alert.py`: `class AlertPriority(enum.Enum)`. -/
inductive AlertPriority
  | low
  | normal
  | high
  | urgent
deriving DecidableEq, Repr

/-- Model of `models/alert.py`: `class AlertStatus(enum.Enum)`. -/
inductive AlertStatus
  | pending
  | sent
  | read
  | dismissed
deriving DecidableEq, Repr

/-- Model of `models/alert.py`: the `alerts` table row.  `metadata` (a JSON text
column) is modelled as the key-value list that `json.dumps` serializes. -/
structure Alert where
  id : Nat
  user_id : Nat
  title : String
  message : String
  alert_type : AlertType
  priority : AlertPriority
  status : AlertStatus
  email_id : Option Nat
  calendar_event_id : Option Nat
  send_email : Bool
  send_push : Bool
  send_sms : Bool
  metadata : List (String × String)
  scheduled_for : Option Nat
  sent_at : Option Nat
  read_at : Option Nat
  dismissed_at : Option Nat
  created_at : Nat
deriving DecidableEq, Repr

/-- Model of `models/user.py`: the fields of `User` the alert engine reads.
`email` is a NOT NULL string column; the Python truthiness test
`if user.email` is false exactly on the empty string. -/
structure User where
  id : Nat
  email : String
  is_active : Bool
  morning_briefing_time : String
deriving DecidableEq, Repr

/-- Model of `models/email.py`: the fields of `Email` the alert engine reads. -/
structure Email where
  id : Nat
  user_id : Nat
  sender_name : String
  sender_email : String
  subject : String
  summary : String
  is_from_vip : Bool
  is_emergency : Bool
deriving DecidableEq, Repr

/-- Model of `models/calendar_event.py`: the fields of `CalendarEvent` the reminder
logic reads.  `start_datetime` is in seconds; `reminder_minutes_before` is the
per-row integer column (default 15). -/
structure CalendarEvent where
  id : Nat
  user_id : Nat
  title : String
  location : Option String
  meeting_link : Option String
  ai_preparation_notes : Option String
  start_datetime : Nat
  reminder_sent : Bool
  reminder_minutes_before : Nat
deriving DecidableEq, Repr

/-! ## DispatchEngine (`alert_service.py`, `_send_alert_notification`) -/

/-- Result of one dispatch call: the updated alert row plus, for each
channel, whether its `_send_*_notification` helper was invoked and whether a
failure was logged for it. -/
structure DispatchResult where
  alert : Alert
  attempted_email : Bool
  attempted_push : Bool
  attempted_sms : Bool
  email_failure_logged : Bool
deriving DecidableEq, Repr

/-- Model of `alert_service.py` lines 173-217, `_send_email_notification`: renders the
HTML/text bodies and calls `email_service.send_email`, whose outcome is either
a boolean or a raised exception.  The helper's own `try/except` catches any
exception, so the helper itself never raises; it returns whether a failure was
logged (send returned `False` or raised). -/
def send_email_notification_helper (sendOutcome : Except PyErr Bool) : Bool :=
  match sendOutcome with
  | Except.ok true => false
  | Except.ok false => true
  | Except.error _ => true

/-- Model of `alert_service.py` lines 150-171, `_send_alert_notification`: attempts the
email channel when `alert.send_email and user.email` (Python truthiness: the
email string must be non-empty), the push channel when `alert.send_push`, the
SMS channel when `alert.send_sms`.  Each channel helper catches its own
exceptions (`_send_email_notification` has an internal `try/except`; the
push/SMS placeholders only log), so no channel outcome interrupts the
sequence, and afterwards the method unconditionally sets
`alert.status = SENT` and `alert.sent_at = now` and commits. -/
def send_alert_notification (a : Alert) (u : User) (now : Nat)
    (emailSendOutcome : Except PyErr Bool) : DispatchResult :=
  let emailAttempted := a.send_email && !(u.email == "")
  let emailFailure :=
    if emailAttempted then send_email_notification_helper emailSendOutcome else false
  let pushAttempted := a.send_push
  let smsAttempted := a.send_sms
  { alert := { a with status := AlertStatus.sent, sent_at := some now }
    attempted_email := emailAttempted
    attempted_push := pushAttempted
    attempted_sms := smsAttempted
    email_failure_logged := emailFailure }

/-! ## AlertStore queries and transitions (`alert_service.py`, `routers/alerts.py`) -/

/-- Sort key used by every alert listing: `order_by(Alert.created_at.desc())`. -/
def createdDescLe (a b : Alert) : Bool :=
  b.created_at ≤ a.created_at

/-- Model of `alert_service.py` lines 262-266, `get_user_alerts`: alerts of one user,
newest first, limited. -/
def get_user_alerts (uid limit : Nat) (db : List Alert) : List Alert :=
  (((db.filter (fun a => a.user_id == uid)).mergeSort createdDescLe).take limit)

/-- Model of `alert_service.py` lines 268-273, `get_unread_alerts`: alerts of one user
whose status is in `{PENDING, SENT}`, newest first. -/
def get_unread_alerts (uid : Nat) (db : List Alert) : List Alert :=
  ((db.filter (fun a =>
      a.user_id == uid &&
      (a.status == AlertStatus.pending || a.status == AlertStatus.sent))).mergeSort
    createdDescLe)

/-- Model of `routers/alerts.py` lines 30-57, `get_alerts`: the filtered listing —
scoped to the current user, optionally filtered by type and status, newest
first, with offset/limit pagination. -/
def get_alerts (uid : Nat) (typeFilter : Option AlertType)
    (statusFilter : Option AlertStatus) (limit offset : Nat)
    (db : List Alert) : List Alert :=
  let q : List Alert := db.filter (fun a => a.user_id == uid)
  let q : List Alert := match typeFilter with
    | some t => q.filter (fun a => a.alert_type == t)
    | none => q
  let q : List Alert := match statusFilter with
    | some s => q.filter (fun a => a.status == s)
    | none => q
  (((q.mergeSort createdDescLe).drop offset).take limit)

/-- The row predicate of `mark_alert_as_read` / `dismiss_alert`:
`Alert.id == alert_id, Alert.user_id == user_id`. -/
def alertMatch (alert_id user_id : Nat) (a : Alert) : Bool :=
  a.id == alert_id && a.user_id == user_id

/-- Model of `.first()` followed by mutating that one ORM object: update the first row
satisfying `p`, leave everything else unchanged. -/
def updateFirst (p : Alert → Bool) (f : Alert → Alert) : List Alert → List Alert
  | [] => []
  | a :: rest => if p a then f a :: rest else a :: updateFirst p f rest

/-- Model of `alert_service.py` lines 275-292, `mark_alert_as_read`: fetch the first
alert with the given id owned by the given user; if found, set
`status = READ` and `read_at = now` (no check of the current status) and
return `True`, else return `False`. -/
def mark_alert_as_read (alert_id user_id now : Nat) (db : List Alert) :
    Bool × List Alert :=
  match db.find? (alertMatch alert_id user_id) with
  | some _ =>
      (true,
       updateFirst (alertMatch alert_id user_id)
         (fun a => { a with status := AlertStatus.read, read_at := some now }) db)
  | none => (false, db)

/-- Model of `alert_service.py` lines 294-311, `dismiss_alert`: same shape as
`mark_alert_as_read`, setting `status = DISMISSED` and `dismissed_at = now`
regardless of the current status. -/
def dismiss_alert (alert_id user_id now : Nat) (db : List Alert) :
    Bool × List Alert :=
  match db.find? (alertMatch alert_id user_id) with
  | some _ =>
      (true,
       updateFirst (alertMatch alert_id user_id)
         (fun a => { a with status := AlertStatus.dismissed, dismissed_at := some now }) db)
  | none => (false, db)

/-- Model of `alert_service.py` lines 313-318, `get_pending_alerts`: rows with
`status == PENDING` and `scheduled_for <= now`.  The SQL comparison rejects
NULL, so a pending alert with no `scheduled_for` is not selected. -/
def get_pending_alerts (now : Nat) (db : List Alert) : List Alert :=
  db.filter (fun a =>
    a.status == AlertStatus.pending &&
    (match a.scheduled_for with
     | some t => decide (t ≤ now)
     | none => false))

/-- The row predicate of the bulk update in `routers/alerts.py` lines
116-131: `Alert.user_id == uid, Alert.status.in_([PENDING, SENT])`. -/
def markAllReadMatch (uid : Nat) (a : Alert) : Bool :=
  a.user_id == uid &&
  (a.status == AlertStatus.pending || a.status == AlertStatus.sent)

/-- Model of `routers/alerts.py` lines 116-131, `mark_all_alerts_as_read`: one bulk
`UPDATE` setting `status = READ, read_at = now` on every row of the user whose
status is `PENDING` or `SENT`; returns the rowcount (the number of matched
rows) together with the updated table. -/
def mark_all_alerts_as_read (uid now : Nat) (db : List Alert) :
    Nat × List Alert :=
  (db.countP (markAllReadMatch uid),
   db.map (fun a =>
     if markAllReadMatch uid a then
       { a with status := AlertStatus.read, read_at := some now }
     else a))

/-! ## AlertFactory (`alert_service.py`, the four `create_*_alert` recipes)

Each recipe builds an Alert row (status defaults to `PENDING`, the three
`send_*` booleans default to `False`/`True`/`False` per the column defaults),
commits it, and immediately calls `_send_alert_notification` on it.  The
creation timestamp comes from the database (`func.now()`), modelled by the
`now` argument; `newId` models the autoincrement primary key. -/

/-- Model of `alert_service.py` lines 21-38, the row built by `create_email_vip_alert`. -/
def mk_email_vip_alert (e : Email) (u : User) (newId now : Nat) : Alert :=
  { id := newId
    user_id := u.id
    email_id := some e.id
    calendar_event_id := none
    title := "VIP Email from " ++ e.sender_name
    message := "You received an important email from " ++ e.sender_name ++ ": " ++ e.subject
    alert_type := AlertType.email_vip
    priority := AlertPriority.high
    status := AlertStatus.pending
    send_email := true
    send_push := true
    send_sms := false
    metadata := [("sender_email", e.sender_email), ("subject", e.subject),
                 ("summary", e.summary)]
    scheduled_for := none
    sent_at := none
    read_at := none
    dismissed_at := none
    created_at := now }

/-- Model of `alert_service.py` lines 52-71, the row built by
`create_emergency_email_alert`: priority URGENT and all three channel flags
set (`send_email=True, send_push=True, send_sms=True`). -/
def mk_emergency_email_alert (e : Email) (u : User) (newId now : Nat) : Alert :=
  { id := newId
    user_id := u.id
    email_id := some e.id
    calendar_event_id := none
    title := "URGENT: Emergency Email from " ++ e.sender_name
    message := "URGENT EMAIL DETECTED from " ++ e.sender_name ++ ": " ++ e.subject
      ++ ". Immediate attention required."
    alert_type := AlertType.email_emergency
    priority := AlertPriority.urgent
    status := AlertStatus.pending
    send_email := true
    send_push := true
    send_sms := true
    metadata := [("sender_email", e.sender_email), ("subject", e.subject),
                 ("summary", e.summary), ("emergency_detected", "true")]
    scheduled_for := none
    sent_at := none
    read_at := none
    dismissed_at := none
    created_at := now }

/-- Model of `alert_service.py` lines 85-107, the row built by
`create_meeting_reminder_alert`: `send_email=False, send_push=True`, and
`send_sms` left at its column default `False`.  `minutes_until` is
`int((start - now).total_seconds() / 60)`, i.e. truncating division. -/
def mk_meeting_reminder_alert (ev : CalendarEvent) (u : User) (newId now : Nat) : Alert :=
  let minutes_until : Int := Int.tdiv ((ev.start_datetime : Int) - (now : Int)) 60
  { id := newId
    user_id := u.id
    email_id := none
    calendar_event_id := some ev.id
    title := "Meeting Reminder: " ++ ev.title
    message := "Your meeting '" ++ ev.title ++ "' starts in " ++ toString minutes_until
      ++ " minutes."
    alert_type := AlertType.meeting_reminder
    priority := AlertPriority.normal
    status := AlertStatus.pending
    send_email := false
    send_push := true
    send_sms := false
    metadata := [("meeting_title", ev.title),
                 ("meeting_link", ev.meeting_link.getD ""),
                 ("location", ev.location.getD ""),
                 ("minutes_until", toString minutes_until),
                 ("preparation_notes", ev.ai_preparation_notes.getD "")]
    scheduled_for := none
    sent_at := none
    read_at := none
    dismissed_at := none
    created_at := now }

/-- Model of `alert_service.py` lines 121-136, the row built by
`create_morning_briefing_alert` from the AI-generated briefing text. -/
def mk_morning_briefing_alert (u : User) (briefing_content : String) (newId now : Nat) : Alert :=
  { id := newId
    user_id := u.id
    email_id := none
    calendar_event_id := none
    title := "Your Daily Morning Briefing"
    message := briefing_content
    alert_type := AlertType.morning_briefing
    priority := AlertPriority.normal
    status := AlertStatus.pending
    send_email := true
    send_push := true
    send_sms := false
    metadata := [("briefing_type", "daily"), ("generated_at", toString now)]
    scheduled_for := none
    sent_at := none
    read_at := none
    dismissed_at := none
    created_at := now }

/-- Common tail of every `create_*_alert`: commit the new row, then run
`_send_alert_notification` on it (which mutates the same ORM object and
commits again), returning the alert and the table as the next read sees it. -/
def persist_and_dispatch (a : Alert) (u : User) (now : Nat)
    (emailSendOutcome : Except PyErr Bool) (db : List Alert) :
    Alert × List Alert :=
  let r := send_alert_notification a u now emailSendOutcome
  (r.alert, db ++ [r.alert])

/-- Model of `alert_service.py` lines 21-50, `create_email_vip_alert`. -/
def create_email_vip_alert (e : Email) (u : User) (newId now : Nat)
    (emailSendOutcome : Except PyErr Bool) (db : List Alert) : Alert × List Alert :=
  persist_and_dispatch (mk_email_vip_alert e u newId now) u now emailSendOutcome db

/-- Model of `alert_service.py` lines 52-83, `create_emergency_email_alert`. -/
def create_emergency_email_alert (e : Email) (u : User) (newId now : Nat)
    (emailSendOutcome : Except PyErr Bool) (db : List Alert) : Alert × List Alert :=
  persist_and_dispatch (mk_emergency_email_alert e u newId now) u now emailSendOutcome db

/-- Model of `alert_service.py` lines 85-119, `create_meeting_reminder_alert`. -/
def create_meeting_reminder_alert (ev : CalendarEvent) (u : User) (newId now : Nat)
    (emailSendOutcome : Except PyErr Bool) (db : List Alert) : Alert × List Alert :=
  persist_and_dispatch (mk_meeting_reminder_alert ev u newId now) u now emailSendOutcome db

/-- Model of `alert_service.py` lines 121-148, `create_morning_briefing_alert`. -/
def create_morning_briefing_alert (u : User) (briefing_content : String) (newId now : Nat)
    (emailSendOutcome : Except PyErr Bool) (db : List Alert) : Alert × List Alert :=
  persist_and_dispatch (mk_morning_briefing_alert u briefing_content newId now) u now
    emailSendOutcome db

/-! ## Scheduler task bodies (`background_tasks.py`) -/

/-- Model of `background_tasks.py` lines 90-102, `_process_new_email`: for one new
email, create a VIP alert when `email.is_from_vip` and an emergency alert when
`email.is_emergency` (both, in that order, when both flags are set).  The
`newId` argument models the autoincrement id of the first created row. -/
def process_new_email (e : Email) (u : User) (newId now : Nat)
    (vipSendOutcome emergencySendOutcome : Except PyErr Bool)
    (db : List Alert) : List Alert :=
  let db1 : List Alert :=
    if e.is_from_vip then (create_email_vip_alert e u newId now vipSendOutcome db).2
    else db
  if e.is_emergency then
    (create_emergency_email_alert e u (newId + 1) now emergencySendOutcome db1).2
  else db1

/-- Model of `background_tasks.py` lines 166-172, the per-user-per-day idempotency
query of `send_morning_briefings`: is there an alert of this user of type
`MORNING_BRIEFING` with `created_at >= today_start`? -/
def has_briefing_today (uid todayStart : Nat) (db : List Alert) : Bool :=
  db.any (fun a =>
    a.user_id == uid && a.alert_type == AlertType.morning_briefing &&
    decide (todayStart ≤ a.created_at))

/-- Model of `background_tasks.py` lines 159-187, the loop body of
`send_morning_briefings` for one user: skip unless the wall-clock string
equals the user's `morning_briefing_time`; skip when a `MORNING_BRIEFING`
alert created today already exists; otherwise generate the briefing text
(an external AI call, modelled by the `content` function) and create-and-
dispatch the briefing alert. -/
def process_user_briefing (u : User) (currentTime : String)
    (todayStart now newId : Nat) (content : User → String)
    (emailSendOutcome : Except PyErr Bool) (db : List Alert) : List Alert :=
  if currentTime != u.morning_briefing_time then db
  else if has_briefing_today u.id todayStart db then db
  else (create_morning_briefing_alert u (content u) newId now emailSendOutcome db).2

/-- The sequential per-user loop of `send_morning_briefings`, threading the
alert table and the autoincrement id. -/
def morning_briefings_loop (users : List User) (currentTime : String)
    (todayStart now newId : Nat) (content : User → String)
    (emailSendOutcome : Except PyErr Bool) (db : List Alert) : List Alert :=
  match users with
  | [] => db
  | u :: rest =>
      morning_briefings_loop rest currentTime todayStart now (newId + 1) content
        emailSendOutcome
        (process_user_briefing u currentTime todayStart now newId content
          emailSendOutcome db)

/-- Model of `background_tasks.py` lines 153-191, `send_morning_briefings`: query the
active users and run the per-user briefing step over them in order. -/
def send_morning_briefings (users : List User) (currentTime : String)
    (todayStart now newId : Nat) (content : User → String)
    (emailSendOutcome : Except PyErr Bool) (db : List Alert) : List Alert :=
  morning_briefings_loop (users.filter (fun u => u.is_active)) currentTime
    todayStart now newId content emailSendOutcome db

/-! ## Calendar reminder query (`calendar_service.py`) -/

/-- The Python value handed to `timedelta(minutes=...)`: either an integer or
a SQLAlchemy column attribute object (`CalendarEvent.reminder_minutes_before`
accessed on the class, not on a row). -/
inductive TimedeltaArg
  | intVal (n : Nat)
  | columnAttr (table column : String)
deriving DecidableEq, Repr

/-- CPython `datetime.timedelta(minutes=x)` accepts only numbers; any other
object (in particular a SQLAlchemy `InstrumentedAttribute`) raises
`TypeError: unsupported type for timedelta minutes component`. -/
def timedelta_minutes : TimedeltaArg → Except PyErr Nat
  | TimedeltaArg.intVal n => Except.ok n
  | TimedeltaArg.columnAttr _ _ => Except.error PyErr.typeError

/-- Model of `calendar_service.py` lines 289-297, `get_events_needing_reminders`:
builds the filter `reminder_sent == False, start_datetime > now,
start_datetime <= now + timedelta(minutes=CalendarEvent.reminder_minutes_before)`.
The `timedelta` call receives the class-level column attribute (not a row's
integer), so constructing the window value is fallible exactly as in the
source. -/
def get_events_needing_reminders (now : Nat) (db : List CalendarEvent) :
    Except PyErr (List CalendarEvent) := do
  let window ← timedelta_minutes
    (TimedeltaArg.columnAttr "calendar_events" "reminder_minutes_before")
  pure (db.filter (fun ev =>
    !ev.reminder_sent && decide (now < ev.start_datetime) &&
    decide (ev.start_datetime ≤ now + 60 * window)))

/-- Model of `calendar_service.py` lines 299-302, `mark_reminder_sent`: set
`reminder_sent = True` on the given event and commit. -/
def mark_reminder_sent (ev : CalendarEvent) : CalendarEvent :=
  { ev with reminder_sent := true }

/-! ## Sample rows used by concrete counterexamples and witnesses -/

/-- A user with a non-empty email address. -/
def user1 : User :=
  { id := 1, email := "u1@example.com", is_active := true, morning_briefing_time := "08:00" }

/-- A user whose email column holds the empty string (falsy in Python). -/
def userNoEmail : User :=
  { id := 2, email := "", is_active := true, morning_briefing_time := "08:00" }

/-- A pending alert of user 1 with email and push enabled. -/
def pendAlert : Alert :=
  { id := 7, user_id := 1, title := "t", message := "m",
    alert_type := AlertType.system, priority := AlertPriority.normal,
    status := AlertStatus.pending, email_id := none, calendar_event_id := none,
    send_email := true, send_push := true, send_sms := false, metadata := [],
    scheduled_for := none, sent_at := none, read_at := none, dismissed_at := none,
    created_at := 10 }

/-- The alert `pendAlert` after the bulk mark-all-read at time 9. -/
def pendAlertRead : Alert :=
  { pendAlert with status := AlertStatus.read, read_at := some 9 }

/-- An already-dispatched (sent) alert with a scheduled_for value. -/
def sentAlert : Alert :=
  { pendAlert with status := AlertStatus.sent, sent_at := some 5, scheduled_for := some 50 }

/-- A dismissed alert of user 1. -/
def dismissedAlert : Alert :=
  { pendAlert with status := AlertStatus.dismissed, dismissed_at := some 30 }

/-- A pending alert of user 1 whose scheduled_for has elapsed at time 100. -/
def schedPending : Alert :=
  { pendAlert with scheduled_for := some 50 }

/-- A pending alert of user 2 whose scheduled_for has elapsed at time 100. -/
def otherUserPending : Alert :=
  { pendAlert with id := 8, user_id := 2, scheduled_for := some 60 }

/-- A morning-briefing alert of user 1 created at time 100. -/
def briefAlert : Alert :=
  { pendAlert with alert_type := AlertType.morning_briefing, created_at := 100 }

/-- An email flagged both VIP and emergency. -/
def vipEmergencyEmail : Email :=
  { id := 3, user_id := 1, sender_name := "Ann", sender_email := "ann@example.com",
    subject := "Subj", summary := "Sum", is_from_vip := true, is_emergency := true }

/-- An event 10 minutes out (600 s after time 1000) with a 15-minute
reminder window and `reminder_sent = false`. -/
def ev10 : CalendarEvent :=
  { id := 4, user_id := 1, title := "standup", location := none, meeting_link := none,
    ai_preparation_notes := none, start_datetime := 1600, reminder_sent := false,
    reminder_minutes_before := 15 }

/-! ## Helper lemmas -/

/-- Every pair of a list zipped with its own map has second component the
image of the first. -/
theorem snd_eq_of_mem_zip_map (g : Alert → Alert) :
    ∀ (l : List Alert) (pr : Alert × Alert), pr ∈ l.zip (l.map g) → pr.2 = g pr.1
  | [], _, h => absurd h (List.not_mem_nil _)
  | a :: rest, pr, h => by
      rw [List.map_cons, List.zip_cons_cons] at h
      rcases List.mem_cons.mp h with h1 | h2
      · subst h1; rfl
      · exact snd_eq_of_mem_zip_map g rest pr h2

/-- Counting the rows matched by `p` equals counting the positions changed by
the pointwise update `if p a then f a else a`, provided `f` really changes
every matched row. -/
theorem countP_eq_countP_changed (p : Alert → Bool) (f : Alert → Alert)
    (hne : ∀ a, p a = true → f a ≠ a) :
    ∀ l : List Alert,
      l.countP p =
        (l.zip (l.map (fun a => if p a then f a else a))).countP
          (fun pr => decide (pr.1 ≠ pr.2))
  | [] => rfl
  | a :: rest => by
      rw [List.map_cons, List.zip_cons_cons, List.countP_cons, List.countP_cons,
        countP_eq_countP_changed p f hne rest]
      by_cases h : p a = true
      · have hfa : a ≠ f a := fun he => hne a h he.symm
        simp [h, hfa]
      · have h' : p a = false := by
          cases hp : p a
          · rfl
          · exact absurd hp h
        simp [h']

/-- Updating the first row matched by `p` does not change the rows kept by a
filter `q` that rejects every `p`-matched row, provided the update does not
change `q`-membership. -/
theorem filter_updateFirst (p q : Alert → Bool) (f : Alert → Alert)
    (hpq : ∀ a, p a = true → q a = false) (hf : ∀ a, q (f a) = q a) :
    ∀ db : List Alert, (updateFirst p f db).filter q = db.filter q
  | [] => rfl
  | a :: rest => by
      unfold updateFirst
      by_cases h : p a = true
      · rw [if_pos h, List.filter_cons, List.filter_cons, hf a, hpq a h]
        simp
      · rw [if_neg h, List.filter_cons, List.filter_cons,
          filter_updateFirst p q f hpq hf rest]

/-- A pointwise update that fixes every row kept by the filter `q` and does
not change `q`-membership leaves the filtered view unchanged. -/
theorem filter_map_update (q : Alert → Bool) (g : Alert → Alert)
    (hg : ∀ a, q a = true → g a = a) (hq : ∀ a, q (g a) = q a) :
    ∀ db : List Alert, (db.map g).filter q = db.filter q
  | [] => rfl
  | a :: rest => by
      rw [List.map_cons, List.filter_cons, List.filter_cons, hq a,
        filter_map_update q g hg hq rest]
      by_cases h : q a = true
      · rw [hg a h]
      · have h' : q a = false := by
          cases hp : q a
          · rfl
          · exact absurd hp h
        simp [h']

/-! ## Claim C1 — dispatch attempts all enabled channels, then transitions -/

/-- C1 counterexample: for a user whose email column is the empty string
(falsy in Python), the enabled email channel is never attempted — the guard
`if alert.send_email and user.email` skips it — so the claim that every
enabled channel is attempted fails at this input. -/
theorem C1_counterexample :
    pendAlert.send_email = true ∧
    (send_alert_notification pendAlert userNoEmail 20 (Except.ok true)).attempted_email
      = false := by
  exact ⟨rfl, rfl⟩

/-- C1 (amended): for every alert, user and email-channel outcome — including
an outcome in which the email send raises — dispatch attempts the push channel
iff `send_push`, the SMS channel iff `send_sms`, and the email channel iff
`send_email` and the user's email address is non-empty; and after the attempts
the alert's status is unconditionally `sent` with `sent_at` stamped to the
dispatch time, every other field unchanged. -/
theorem C1_dispatch_attempts_and_transition (a : Alert) (u : User) (now : Nat)
    (emailSendOutcome : Except PyErr Bool) :
    (send_alert_notification a u now emailSendOutcome).attempted_push = a.send_push ∧
    (send_alert_notification a u now emailSendOutcome).attempted_sms = a.send_sms ∧
    (send_alert_notification a u now emailSendOutcome).attempted_email
      = (a.send_email && !(u.email == "")) ∧
    (send_alert_notification a u now emailSendOutcome).alert
      = { a with status := AlertStatus.sent, sent_at := some now } :=
  ⟨rfl, rfl, rfl, rfl⟩

/-! ## Claim C2 — dispatch is not idempotent on sent_at -/

/-- C2 counterexample: dispatching an alert that is already `sent` with
`sent_at = 5` at time 9 changes `sent_at` to 9 — the timestamp is
overwritten, not preserved. -/
theorem C2_counterexample :
    sentAlert.status = AlertStatus.sent ∧
    sentAlert.sent_at = some 5 ∧
    (send_alert_notification sentAlert user1 9 (Except.ok true)).alert.sent_at
      ≠ sentAlert.sent_at := by
  refine ⟨rfl, rfl, ?_⟩
  decide

/-- C2 (amended): dispatch always assigns `sent_at := now` and
`status := sent`, whatever the alert's previous status and `sent_at` were; a
second dispatch therefore overwrites the timestamp rather than preserving
it. -/
theorem C2_dispatch_overwrites_sent_at (a : Alert) (u : User) (now : Nat)
    (emailSendOutcome : Except PyErr Bool) :
    (send_alert_notification a u now emailSendOutcome).alert.sent_at = some now ∧
    (send_alert_notification a u now emailSendOutcome).alert.status
      = AlertStatus.sent :=
  ⟨rfl, rfl⟩

/-! ## Claim C3 — what the pending-alert sweep actually re-attempts -/

/-- C3 counterexample: an alert in the non-terminal state `sent` (neither
`read` nor `dismissed`) is not selected by the sweep query, which filters on
`status == PENDING` only. -/
theorem C3_counterexample :
    sentAlert.status ≠ AlertStatus.read ∧
    sentAlert.status ≠ AlertStatus.dismissed ∧
    get_pending_alerts 100 [sentAlert] = [] := by
  refine ⟨?_, ?_, ?_⟩ <;> decide

/-- C3 (amended): the sweep query selects exactly the alerts whose status is
`pending` and whose `scheduled_for` is set and has elapsed; `sent` alerts and
pending alerts with a NULL `scheduled_for` are never re-attempted. -/
theorem C3_sweep_selects_elapsed_pending (now : Nat) (db : List Alert) (a : Alert) :
    a ∈ get_pending_alerts now db ↔
      a ∈ db ∧ a.status = AlertStatus.pending ∧
        ∃ t, a.scheduled_for = some t ∧ t ≤ now := by
  unfold get_pending_alerts
  rw [List.mem_filter]
  cases h : a.scheduled_for with
  | none => simp [h]
  | some t => simp [h, and_assoc]

/-! ## Claim C4 — read and dismissed are not terminal -/

/-- C4 counterexample: marking a dismissed alert as read succeeds and moves
its status to `read` — `dismissed` is left by `mark_alert_as_read`. -/
theorem C4_counterexample :
    dismissedAlert.status = AlertStatus.dismissed ∧
    (mark_alert_as_read 7 1 50 [dismissedAlert]).1 = true ∧
    ((mark_alert_as_read 7 1 50 [dismissedAlert]).2.map Alert.status)
      = [AlertStatus.read] := by
  refine ⟨rfl, ?_, ?_⟩ <;> decide

/-- C4 (amended): `mark_alert_as_read` and `dismiss_alert` overwrite the
status of the addressed alert unconditionally — no matter its current status,
including `read` and `dismissed` — so neither state is terminal; the
transitions `dismissed → read` and `read → dismissed` are both reachable. -/
theorem C4_read_dismiss_overwrite_status (a : Alert) (now : Nat) :
    (mark_alert_as_read a.id a.user_id now [a]).2
      = [{ a with status := AlertStatus.read, read_at := some now }] ∧
    (dismiss_alert a.id a.user_id now [a]).2
      = [{ a with status := AlertStatus.dismissed, dismissed_at := some now }] := by
  have hm : alertMatch a.id a.user_id a = true := by
    simp [alertMatch]
  constructor
  · simp [mark_alert_as_read, List.find?, hm, updateFirst]
  · simp [dismiss_alert, List.find?, hm, updateFirst]

/-! ## Claim C5 — owner scoping of AlertStore operations -/

/-- C5 counterexample: the pending-sweep query `get_pending_alerts` takes no
owner and returns, in a single call, alerts belonging to two different users —
it is not scoped to a single owner. -/
theorem C5_counterexample :
    schedPending ∈ get_pending_alerts 100 [schedPending, otherUserPending] ∧
    otherUserPending ∈ get_pending_alerts 100 [schedPending, otherUserPending] ∧
    schedPending.user_id ≠ otherUserPending.user_id := by
  refine ⟨?_, ?_, ?_⟩ <;> decide

/-- An alert surviving the optional type filter of `get_alerts` was in the
underlying query. -/
theorem mem_of_mem_optional_type_filter (q : List Alert) (tf : Option AlertType)
    (a : Alert)
    (h : a ∈ (match tf with
              | some t => q.filter (fun (b : Alert) => b.alert_type == t)
              | none => q)) : a ∈ q := by
  cases tf with
  | none => exact h
  | some t => exact (List.mem_filter.mp h).1

/-- An alert surviving the optional status filter of `get_alerts` was in the
underlying query. -/
theorem mem_of_mem_optional_status_filter (q : List Alert) (sf : Option AlertStatus)
    (a : Alert)
    (h : a ∈ (match sf with
              | some s => q.filter (fun (b : Alert) => b.status == s)
              | none => q)) : a ∈ q := by
  cases sf with
  | none => exact h
  | some s => exact (List.mem_filter.mp h).1

/-- C5 (amended): every owner-parameterised AlertStore operation is scoped to
that owner — `get_user_alerts`, `get_unread_alerts` and the router listing
return only the owner's alerts, and `mark_alert_as_read`, `dismiss_alert` and
the bulk mark-all-read leave every other user's rows untouched.  (The
pending-sweep query, by contrast, is global — see the counterexample.) -/
theorem C5_owner_scoped_operations (uid limit offset alert_id now : Nat)
    (tf : Option AlertType) (sf : Option AlertStatus) (db : List Alert) :
    (get_user_alerts uid limit db).all (fun a => a.user_id == uid) = true ∧
    (get_unread_alerts uid db).all (fun a => a.user_id == uid) = true ∧
    (get_alerts uid tf sf limit offset db).all (fun a => a.user_id == uid) = true ∧
    (mark_alert_as_read alert_id uid now db).2.filter (fun a => !(a.user_id == uid))
      = db.filter (fun a => !(a.user_id == uid)) ∧
    (dismiss_alert alert_id uid now db).2.filter (fun a => !(a.user_id == uid))
      = db.filter (fun a => !(a.user_id == uid)) ∧
    (mark_all_alerts_as_read uid now db).2.filter (fun a => !(a.user_id == uid))
      = db.filter (fun a => !(a.user_id == uid)) := by
  have hmatch_user : ∀ a : Alert, alertMatch alert_id uid a = true →
      (!(a.user_id == uid)) = false := by
    intro a ha
    simp only [alertMatch, Bool.and_eq_true, beq_iff_eq] at ha
    simp [ha.2]
  have hbulk_user : ∀ a : Alert, markAllReadMatch uid a = true →
      (!(a.user_id == uid)) = false := by
    intro a ha
    simp only [markAllReadMatch, Bool.and_eq_true, beq_iff_eq] at ha
    simp [ha.1]
  refine ⟨?_, ?_, ?_, ?_, ?_, ?_⟩
  · rw [List.all_eq_true]
    intro a ha
    have h1 := List.mem_of_mem_take ha
    have h2 := List.mem_mergeSort.mp h1
    exact (List.mem_filter.mp h2).2
  · rw [List.all_eq_true]
    intro a ha
    have h1 := List.mem_mergeSort.mp ha
    have h2 := (List.mem_filter.mp h1).2
    simp only [Bool.and_eq_true] at h2
    exact h2.1
  · rw [List.all_eq_true]
    intro a ha
    have h1 := List.mem_of_mem_take ha
    have h2 := List.mem_of_mem_drop h1
    have h3 := List.mem_mergeSort.mp h2
    have h4 := mem_of_mem_optional_status_filter _ sf a h3
    have h5 := mem_of_mem_optional_type_filter _ tf a h4
    exact (List.mem_filter.mp h5).2
  · unfold mark_alert_as_read
    cases hf : db.find? (alertMatch alert_id uid) with
    | none => rfl
    | some b =>
        dsimp only
        exact filter_updateFirst (alertMatch alert_id uid)
          (fun b => !(b.user_id == uid))
          (fun b => { b with status := AlertStatus.read, read_at := some now })
          hmatch_user (fun b => rfl) db
  · unfold dismiss_alert
    cases hf : db.find? (alertMatch alert_id uid) with
    | none => rfl
    | some b =>
        dsimp only
        exact filter_updateFirst (alertMatch alert_id uid)
          (fun b => !(b.user_id == uid))
          (fun b => { b with status := AlertStatus.dismissed, dismissed_at := some now })
          hmatch_user (fun b => rfl) db
  · unfold mark_all_alerts_as_read
    refine filter_map_update _ _ ?_ ?_ db
    · intro a ha
      by_cases hp : markAllReadMatch uid a = true
      · exact absurd (hbulk_user a hp) (by simp [ha])
      · rw [if_neg hp]
    · intro a
      by_cases hp : markAllReadMatch uid a = true
      · rw [if_pos hp]
      · rw [if_neg hp]

/-! ## Claim C6 — bulk mark-all-read touches exactly the pending/sent rows -/

/-- C6: the bulk mark-all-read transitions to `read` exactly the user's rows
whose prior status was `pending` or `sent` — each such row is rewritten with
`status = read, read_at = now`, every other row (already `read`, `dismissed`,
or another user's) is returned unchanged — and the returned count is exactly
the number of rows the update changed. -/
theorem C6_mark_all_read_exact (uid now : Nat) (db : List Alert) :
    (∀ pr ∈ db.zip (mark_all_alerts_as_read uid now db).2,
      (pr.1.user_id = uid ∧
        (pr.1.status = AlertStatus.pending ∨ pr.1.status = AlertStatus.sent) →
          pr.2 = { pr.1 with status := AlertStatus.read, read_at := some now }) ∧
      (pr.1.user_id ≠ uid ∨ pr.1.status = AlertStatus.read ∨
        pr.1.status = AlertStatus.dismissed → pr.2 = pr.1)) ∧
    (mark_all_alerts_as_read uid now db).2.length = db.length ∧
    (mark_all_alerts_as_read uid now db).1
      = (db.zip (mark_all_alerts_as_read uid now db).2).countP
          (fun pr => decide (pr.1 ≠ pr.2)) := by
  have hchange : ∀ a : Alert, markAllReadMatch uid a = true →
      ({ a with status := AlertStatus.read, read_at := some now } : Alert) ≠ a := by
    intro a ha he
    have hs : ({ a with status := AlertStatus.read, read_at := some now } : Alert).status
        = a.status := by rw [he]
    simp only [markAllReadMatch, Bool.and_eq_true, Bool.or_eq_true, beq_iff_eq] at ha
    rcases ha.2 with hp | hp <;> rw [hp] at hs <;> exact AlertStatus.noConfusion hs
  refine ⟨?_, ?_, ?_⟩
  · intro pr hpr
    have hsnd := snd_eq_of_mem_zip_map
      (fun a => if markAllReadMatch uid a then
        { a with status := AlertStatus.read, read_at := some now } else a) db pr hpr
    constructor
    · rintro ⟨hu, hs⟩
      have hm : markAllReadMatch uid pr.1 = true := by
        simp only [markAllReadMatch, Bool.and_eq_true, Bool.or_eq_true, beq_iff_eq]
        exact ⟨hu, hs⟩
      rw [hsnd]
      dsimp only
      rw [if_pos hm]
    · intro hother
      have hm : ¬ markAllReadMatch uid pr.1 = true := by
        simp only [markAllReadMatch, Bool.and_eq_true, Bool.or_eq_true, beq_iff_eq]
        rintro ⟨hu, hs⟩
        rcases hother with h | h | h
        · exact h hu
        · rcases hs with h2 | h2 <;> rw [h] at h2 <;> exact AlertStatus.noConfusion h2
        · rcases hs with h2 | h2 <;> rw [h] at h2 <;> exact AlertStatus.noConfusion h2
      rw [hsnd]
      dsimp only
      rw [if_neg hm]
  · exact List.length_map db _
  · exact countP_eq_countP_changed (markAllReadMatch uid)
      (fun a => { a with status := AlertStatus.read, read_at := some now })
      hchange db

/-- C6 witness: instantiating the theorem at a one-row table containing a
pending alert of user 1 shows that row rewritten to `read` at time 9. -/
theorem C6_mark_all_read_exact_witness :
    (pendAlert, pendAlertRead) ∈ [pendAlert].zip (mark_all_alerts_as_read 1 9 [pendAlert]).2 ∧
    pendAlertRead = { pendAlert with status := AlertStatus.read, read_at := some 9 } := by
  have hmem : (pendAlert, pendAlertRead)
      ∈ [pendAlert].zip (mark_all_alerts_as_read 1 9 [pendAlert]).2 := by decide
  exact ⟨hmem, ((C6_mark_all_read_exact 1 9 [pendAlert]).1 _ hmem).1 ⟨rfl, Or.inl rfl⟩⟩

/-! ## Claim C7 — channel flags are determined by alert type at creation -/

/-- C7: every alert built by the emergency-email recipe has type
`email_emergency` with all three channel flags true, and every alert built by
the meeting-reminder recipe has type `meeting_reminder` with only the push
flag true — also after the immediate dispatch that creation performs. -/
theorem C7_channel_flags_by_type (e : Email) (ev : CalendarEvent) (u : User)
    (newId now : Nat) (emailSendOutcome : Except PyErr Bool) (db : List Alert) :
    ((create_emergency_email_alert e u newId now emailSendOutcome db).1.alert_type
        = AlertType.email_emergency ∧
      (create_emergency_email_alert e u newId now emailSendOutcome db).1.send_email = true ∧
      (create_emergency_email_alert e u newId now emailSendOutcome db).1.send_push = true ∧
      (create_emergency_email_alert e u newId now emailSendOutcome db).1.send_sms = true) ∧
    ((create_meeting_reminder_alert ev u newId now emailSendOutcome db).1.alert_type
        = AlertType.meeting_reminder ∧
      (create_meeting_reminder_alert ev u newId now emailSendOutcome db).1.send_push = true ∧
      (create_meeting_reminder_alert ev u newId now emailSendOutcome db).1.send_email = false ∧
      (create_meeting_reminder_alert ev u newId now emailSendOutcome db).1.send_sms = false) :=
  ⟨⟨rfl, rfl, rfl, rfl⟩, ⟨rfl, rfl, rfl, rfl⟩⟩

/-! ## Claim C8 — the daily briefing is idempotent per user per day -/

/-- Existence of a morning-briefing row created today implies the boolean
idempotency check of `send_morning_briefings` fires. -/
theorem has_briefing_today_of_exists (uid todayStart : Nat) (db : List Alert)
    (h : ∃ a ∈ db, a.user_id = uid ∧ a.alert_type = AlertType.morning_briefing ∧
      todayStart ≤ a.created_at) :
    has_briefing_today uid todayStart db = true := by
  rcases h with ⟨a, ha, h1, h2, h3⟩
  unfold has_briefing_today
  rw [List.any_eq_true]
  exact ⟨a, ha, by simp [h1, h2, h3]⟩

/-- The briefing loop never adds an alert for a user who already has a
morning-briefing alert created today: the view of that user's rows is
unchanged by a whole run of the loop, whatever the user list. -/
theorem morning_briefings_loop_idempotent (uid : Nat) :
    ∀ (users : List User) (currentTime : String) (todayStart now newId : Nat)
      (content : User → String) (emailSendOutcome : Except PyErr Bool)
      (db : List Alert),
      (∃ a ∈ db, a.user_id = uid ∧ a.alert_type = AlertType.morning_briefing ∧
        todayStart ≤ a.created_at) →
      (morning_briefings_loop users currentTime todayStart now newId content
          emailSendOutcome db).filter (fun a => a.user_id == uid)
        = db.filter (fun a => a.user_id == uid)
  | [], _, _, _, _, _, _, _, _ => rfl
  | u :: rest, currentTime, todayStart, now, newId, content, emailSendOutcome, db, h => by
      unfold morning_briefings_loop
      set db' := process_user_briefing u currentTime todayStart now newId content
        emailSendOutcome db with hdb'
      have step : db'.filter (fun a => a.user_id == uid)
            = db.filter (fun a => a.user_id == uid) ∧
          (∃ a ∈ db', a.user_id = uid ∧ a.alert_type = AlertType.morning_briefing ∧
            todayStart ≤ a.created_at) := by
        rw [hdb']
        unfold process_user_briefing
        by_cases ht : currentTime != u.morning_briefing_time
        · rw [if_pos ht]
          exact ⟨rfl, h⟩
        · rw [if_neg ht]
          by_cases hb : has_briefing_today u.id todayStart db = true
          · rw [if_pos hb]
            exact ⟨rfl, h⟩
          · rw [if_neg hb]
            have huid : u.id ≠ uid := by
              intro he
              exact hb (has_briefing_today_of_exists u.id todayStart db (he ▸ h))
            constructor
            · unfold create_morning_briefing_alert persist_and_dispatch
              rw [List.filter_append]
              have : (List.filter (fun a => a.user_id == uid)
                  [(send_alert_notification
                      (mk_morning_briefing_alert u (content u) newId now) u now
                      emailSendOutcome).alert]) = [] := by
                simp [send_alert_notification, mk_morning_briefing_alert, huid]
              rw [this, List.append_nil]
            · rcases h with ⟨a, ha, hprops⟩
              exact ⟨a, List.mem_append_left _ ha, hprops⟩
      rw [morning_briefings_loop_idempotent uid rest currentTime todayStart now
        (newId + 1) content emailSendOutcome db' step.2]
      exact step.1

/-- C8: if a user already has a morning-briefing alert created today
(`created_at ≥ today_start`), a further run of the daily-briefing task — over
any user list, at any wall-clock time — leaves that user's alert rows exactly
as they were: no new alert is created for that user. -/
theorem C8_briefing_idempotent_per_day (users : List User) (currentTime : String)
    (todayStart now newId uid : Nat) (content : User → String)
    (emailSendOutcome : Except PyErr Bool) (db : List Alert)
    (h : ∃ a ∈ db, a.user_id = uid ∧ a.alert_type = AlertType.morning_briefing ∧
      todayStart ≤ a.created_at) :
    (send_morning_briefings users currentTime todayStart now newId content
        emailSendOutcome db).filter (fun a => a.user_id == uid)
      = db.filter (fun a => a.user_id == uid) := by
  unfold send_morning_briefings
  exact morning_briefings_loop_idempotent uid (users.filter (fun u => u.is_active))
    currentTime todayStart now newId content emailSendOutcome db h

/-- C8 witness: user 1 already has `briefAlert` (a morning-briefing created at
time 100 ≥ today-start 90); running the task again changes nothing in user 1's
rows. -/
theorem C8_briefing_idempotent_per_day_witness :
    (send_morning_briefings [user1] "08:00" 90 200 50 (fun _ => "hello")
        (Except.ok true) [briefAlert]).filter (fun a => a.user_id == 1)
      = [briefAlert].filter (fun a => a.user_id == 1) :=
  C8_briefing_idempotent_per_day [user1] "08:00" 90 200 50 1 (fun _ => "hello")
    (Except.ok true) [briefAlert] (by decide)

/-! ## Claim C9 — a VIP-and-emergency email yields exactly two alerts -/

/-- C9: processing one new email flagged both VIP and emergency appends
exactly two alert rows to the table — first one of type `email_vip`, then one
of type `email_emergency`, with distinct ids — never a single merged alert. -/
theorem C9_vip_and_emergency_two_alerts (e : Email) (u : User) (newId now : Nat)
    (vipSendOutcome emergencySendOutcome : Except PyErr Bool) (db : List Alert)
    (hvip : e.is_from_vip = true) (hemg : e.is_emergency = true) :
    ∃ a1 a2 : Alert,
      process_new_email e u newId now vipSendOutcome emergencySendOutcome db
        = db ++ [a1, a2] ∧
      a1.alert_type = AlertType.email_vip ∧
      a2.alert_type = AlertType.email_emergency ∧
      a1.id ≠ a2.id := by
  refine ⟨(send_alert_notification (mk_email_vip_alert e u newId now) u now
      vipSendOutcome).alert,
    (send_alert_notification (mk_emergency_email_alert e u (newId + 1) now) u now
      emergencySendOutcome).alert, ?_, rfl, rfl, ?_⟩
  · unfold process_new_email create_email_vip_alert create_emergency_email_alert
      persist_and_dispatch
    rw [if_pos hvip, if_pos hemg]
    dsimp only
    rw [List.append_assoc]
    rfl
  · show newId ≠ newId + 1
    omega

/-- C9 witness: a concrete email with both flags processed against an empty
table yields exactly a VIP alert followed by an emergency alert. -/
theorem C9_vip_and_emergency_two_alerts_witness :
    ∃ a1 a2 : Alert,
      process_new_email vipEmergencyEmail user1 40 100 (Except.ok true)
          (Except.ok true) [] = [] ++ [a1, a2] ∧
      a1.alert_type = AlertType.email_vip ∧
      a2.alert_type = AlertType.email_emergency ∧
      a1.id ≠ a2.id :=
  C9_vip_and_emergency_two_alerts vipEmergencyEmail user1 40 100 (Except.ok true)
    (Except.ok true) [] rfl rfl

/-! ## Claim C10 — the events-needing-reminder query -/

/-- C10: the event `ev10` is 10 minutes out with a 15-minute window and
`reminder_sent = false`, exactly the spec's scenario — yet
`get_events_needing_reminders` does not return it: the query raises
`TypeError`, because the source passes the class-level column attribute
`CalendarEvent.reminder_minutes_before` (not a number) to
`timedelta(minutes=...)`.  No call of this query can ever return an event. -/
theorem C10_reminder_query_raises :
    ev10.reminder_sent = false ∧
    1000 < ev10.start_datetime ∧
    ev10.start_datetime ≤ 1000 + 60 * ev10.reminder_minutes_before ∧
    get_events_needing_reminders 1000 [ev10] = Except.error PyErr.typeError := by
  refine ⟨rfl, ?_, ?_, rfl⟩ <;> decide
